import Mathlib

/-!
Verification of the uniqlo-my-scraper repository (src/scraper.py) against its
natural-language specification.

The Python source is shallowly embedded: every DOM element is represented by
the answers it gives to the queries the code performs on it, Python exceptions
are represented by the error side of `Except`, Python `None` by `Option.none`,
and CPython string/number primitives are re-implemented on `List Char` / `Int`
with structural recursion so that all definitions evaluate inside the kernel.
Python float arithmetic is modelled as exact rational arithmetic carried out
on integer mantissa/scale pairs; this is exact for every value the discount
computation can see up to float representation error, which no claim depends
on.
-/

namespace Scraper

/-! ### CPython string primitives, re-implemented on character lists -/

/-- Whitespace test used by the model of Python `str.strip` (ASCII whitespace;
Python additionally strips some rarer Unicode space characters, which none of
the claims exercise). -/
def isPySpace (c : Char) : Bool :=
  c = ' ' || c = '\t' || c = '\n' || c = '\r' || c = '\x0b' || c = '\x0c'

/-- Model of Python `str.strip()`: drop whitespace from both ends. -/
def pyStrip (s : String) : String :=
  String.mk (((s.data.dropWhile isPySpace).reverse.dropWhile isPySpace).reverse)

/-- Model of Python `sub in s` (substring containment) on character lists. -/
def containsSub (sub : List Char) : List Char → Bool
  | [] => sub.isEmpty
  | c :: rest => sub.isPrefixOf (c :: rest) || containsSub sub rest

/-- Model of Python `s in t` on strings. -/
def pyContains (sub s : String) : Bool :=
  containsSub sub.data s.data

/-- Worker for `pySplitL`; the fuel argument only makes the recursion
structural, it is always large enough to finish the scan. -/
def splitOnFuel (sep : List Char) : Nat → List Char → List Char → List (List Char)
  | 0, acc, rest => [acc.reverse ++ rest]
  | _ + 1, acc, [] => [acc.reverse]
  | fuel + 1, acc, c :: rest =>
    if sep.isPrefixOf (c :: rest) then
      acc.reverse :: splitOnFuel sep fuel [] (List.drop (sep.length - 1) rest)
    else
      splitOnFuel sep fuel (c :: acc) rest

/-- Model of Python `s.split(sep)` for a non-empty separator: split on every
occurrence, keeping empty pieces (so `"product-card-1".split("product-card-")`
is `["", "1"]`). -/
def pySplitL (sep cs : List Char) : List (List Char) :=
  splitOnFuel sep (cs.length + 1) [] cs

/-- Model of Python `s.split(sep)` on strings. -/
def pySplit (sep s : String) : List String :=
  (pySplitL sep.data s.data).map String.mk

/-- Model of Python `s.replace(old, new)` for a non-empty `old`; CPython's
result coincides with joining the split pieces with `new`. -/
def pyReplace (old new s : String) : String :=
  String.mk (List.intercalate new.data (pySplitL old.data s.data))

/-! ### Model of Python `float(...)` restricted to plain decimal literals

The price strings the scraper feeds to `float` are decimal digit strings with
an optional sign and an optional fractional part (thousands separators and the
currency marker have already been removed).  The model parses exactly those,
returning the exact value as an integer mantissa together with a decimal
scale: the parsed value is `mant / 10 ^ scale`.  Exponents, `inf`/`nan` and
digit-group underscores, which CPython also accepts, never occur in the
scraped data and are rejected by the model (rejection on the Python side is a
`ValueError`, which the caller catches). -/

/-- Exact value of a parsed decimal literal: `mant / 10 ^ scale`. -/
structure PyDec where
  mant : Int
  scale : Nat
deriving DecidableEq, Repr

/-- Parses an unsigned digit string with optional single dot.  Returns the
mantissa (as a natural number) and the number of fractional digits. -/
def parseDigits (cs : List Char) : Option (Nat × Nat) :=
  let pieces := pySplitL ['.'] cs
  match pieces with
  | [intPart, fracPart] =>
    if (intPart ++ fracPart).all Char.isDigit && (intPart ++ fracPart) ≠ [] then
      some (((intPart ++ fracPart).foldl (fun a c => a * 10 + (c.toNat - 48)) 0),
            fracPart.length)
    else none
  | [onlyPart] =>
    if onlyPart.all Char.isDigit && onlyPart ≠ [] then
      some ((onlyPart.foldl (fun a c => a * 10 + (c.toNat - 48)) 0), 0)
    else none
  | _ => none

/-- Model of Python `float(s)` for plain decimal literals: optional
surrounding whitespace, optional sign, digits with at most one dot.
`none` models the `ValueError` raised on any other input. -/
def pyFloat (s : String) : Option PyDec :=
  let t := (pyStrip s).data
  match t with
  | '-' :: rest => (parseDigits rest).map (fun p => ⟨-(p.1 : Int), p.2⟩)
  | '+' :: rest => (parseDigits rest).map (fun p => ⟨(p.1 : Int), p.2⟩)
  | _ => (parseDigits t).map (fun p => ⟨(p.1 : Int), p.2⟩)

/-! ### Model of Python `round(x, 2)` and float formatting for the discount

`round(x, 2)` on a float rounds to the nearest multiple of 1/100, ties to
even (modelled on the exact rational value).  The result is returned as an
integer number of hundredths.  `f"{d}%"` formatting of such a value matches
Python's shortest-repr form for floats that are exact in two decimals
(`25.0` prints as `"25.0"`, `12.5` as `"12.5"`, `33.33` as `"33.33"`). -/

/-- Rounds the rational `num / den` (with `den > 0`) to the nearest integer,
ties to even. -/
def roundHalfEven (num den : Int) : Int :=
  let q := Int.fdiv num den
  let r := num - den * q
  if 2 * r < den then q
  else if 2 * r > den then q + 1
  else if q % 2 = 0 then q else q + 1

/-- Number of hundredths in the discount percentage
`(original - sale) / original * 100` rounded to two decimals, computed from
the two parsed prices.  The caller must rule out a zero original price. -/
def discountHundredths (o s : PyDec) : Int :=
  let num := 100 * 100 * (o.mant * 10 ^ s.scale - s.mant * 10 ^ o.scale)
  let den := o.mant * 10 ^ s.scale
  if den < 0 then roundHalfEven (-num) (-den) else roundHalfEven num den

/-- Renders `c` hundredths as Python renders the float `c / 100` (shortest
decimal form, always keeping at least one fractional digit). -/
def formatHundredths (c : Int) : String :=
  let sign := if c < 0 then "-" else ""
  let n := c.natAbs
  let ip := toString (n / 100)
  let f := n % 100
  if f = 0 then sign ++ ip ++ ".0"
  else if f % 10 = 0 then sign ++ ip ++ "." ++ toString (f / 10)
  else if f < 10 then sign ++ ip ++ ".0" ++ toString f
  else sign ++ ip ++ "." ++ toString f

/-! ### PathPolicy: `is_allowed` (src/scraper.py lines 51-71)

Two models of `urlparse(url).path` follow.  `urlparsePath` is a TOTAL
APPROXIMATION: strip a scheme when the text before the first colon is a
valid scheme name, strip a `//netloc` part, and cut the rest at the first
`?` or `#`.  It agrees with CPython exactly on URLs that contain no tab,
carriage-return or newline byte and whose netloc has balanced or no square
brackets; the rest of this development uses it in positions where that
difference is absorbed anyway (the extractor wraps every item in a blanket
exception handler).  The FAITHFUL model is `urlparse_path` further below: it
also removes the unsafe bytes first, and reproduces the
ValueError("Invalid IPv6 URL") that CPython urlsplit raises on an
unbalanced-bracket netloc — on such input the source `is_allowed`, which has
no exception handler, raises rather than returning a boolean.  (CPython
urlparse additionally splits `;parameters` off the last path segment; for
the four disallowed prefixes below, none of which contains a semicolon, that
split can never change the prefix test, so neither model includes it.) -/

/-- Characters allowed in a URL scheme after the leading letter. -/
def isSchemeChar (c : Char) : Bool :=
  c.isAlpha || c.isDigit || c = '+' || c = '-' || c = '.'

/-- Splits a character list at the first colon, if any. -/
def splitColon : List Char → Option (List Char × List Char)
  | [] => none
  | c :: rest =>
    if c = ':' then some ([], rest)
    else (splitColon rest).map (fun p => (c :: p.1, p.2))

/-- Drops a leading `scheme:` when the text before the first colon is a valid
scheme name (non-empty, leading letter, scheme characters only). -/
def stripScheme (cs : List Char) : List Char :=
  match splitColon cs with
  | none => cs
  | some (before, after) =>
    if before ≠ [] && (before.headD 'a').isAlpha && before.all isSchemeChar then
      after
    else cs

/-- Drops a leading `//netloc` part: everything up to the next `/`, `?` or
`#` (that delimiter stays). -/
def stripNetloc (cs : List Char) : List Char :=
  match cs with
  | '/' :: '/' :: rest => rest.dropWhile (fun c => c ≠ '/' && c ≠ '?' && c ≠ '#')
  | _ => cs

/-- Total approximation of `urlparse(url).path`: what remains after scheme
and netloc, cut at the first query or fragment delimiter.  Exact for URLs
without tab/CR/LF bytes whose netloc has balanced or no square brackets;
`urlparse_path` below is the faithful, fallible model. -/
def urlparsePath (url : String) : String :=
  String.mk ((stripNetloc (stripScheme url.data)).takeWhile
    (fun c => c ≠ '?' && c ≠ '#'))

/-- Disallowed path prefixes, copied from `is_allowed` in src/scraper.py. -/
def disallowed_paths : List String :=
  ["/my/en/cms/", "/my/en/search", "/my/en/news/search", "/my/en/news/sp/search"]

/-- Total approximation of `is_allowed(url)` (src/scraper.py lines 51-71)
through `urlparsePath`: take the parsed path and reject when it starts with
a disallowed prefix.  Exact on the same URLs as `urlparsePath`; the faithful
model, including the ValueError that urlparse can raise, is `is_allowedE`
below. -/
def is_allowed (url : String) : Bool :=
  !(disallowed_paths.any (fun d => d.data.isPrefixOf (urlparsePath url).data))

/-- True when the text before the first colon is a valid URL scheme. -/
def hasScheme (cs : List Char) : Bool :=
  match splitColon cs with
  | none => false
  | some (before, _) =>
    before ≠ [] && (before.headD 'a').isAlpha && before.all isSchemeChar

/-- Splits off a leading `scheme:` part (kept with its colon); the first
component is empty when there is no scheme. -/
def splitSchemeParts (cs : List Char) : List Char × List Char :=
  match splitColon cs with
  | none => ([], cs)
  | some (before, after) =>
    if before ≠ [] && (before.headD 'a').isAlpha && before.all isSchemeChar then
      (before ++ [':'], after)
    else ([], cs)

/-- Splits off a leading `//netloc` part (kept with its slashes); the first
component is empty when there is no netloc. -/
def netlocPart (cs : List Char) : List Char × List Char :=
  match cs with
  | '/' :: '/' :: rest =>
    ('/' :: '/' :: rest.takeWhile (fun c => c ≠ '/' && c ≠ '?' && c ≠ '#'),
     rest.dropWhile (fun c => c ≠ '/' && c ≠ '?' && c ≠ '#'))
  | _ => ([], cs)

/-- Everything up to and including the last slash; empty if no slash. -/
def dirnamePath (path : List Char) : List Char :=
  (path.reverse.dropWhile (fun c => c ≠ '/')).reverse

/-- Model of Python `urljoin(base, url)` as used on line 229-231 of
src/scraper.py; `none` stands for a missing href attribute, on which CPython
urljoin returns the base. -/
def urljoin (base : String) (url : Option String) : String :=
  match url with
  | none => base
  | some u =>
    if u = "" then base
    else
      let sp := splitSchemeParts base.data
      let np := netlocPart sp.2
      if hasScheme u.data then u
      else if ['/', '/'].isPrefixOf u.data then String.mk (sp.1 ++ u.data)
      else if ['/'].isPrefixOf u.data then String.mk (sp.1 ++ np.1 ++ u.data)
      else
        String.mk (sp.1 ++ np.1 ++
          dirnamePath (np.2.takeWhile (fun c => c ≠ '?' && c ≠ '#')) ++ u.data)

/-! ### The DOM interface consumed by `extract_product_info`

A rendered element is represented by the answers it gives to the queries the
Python code performs on it: its visible text and its attribute list.  A
product card is represented by the results of the fixed selector queries the
extractor issues; `none` for a `find_element` query models the
NoSuchElementException raised when the selector matches nothing, while
`find_elements` queries yield a (possibly empty) list. -/

structure Elem where
  text : String
  attrs : List (String × String)
deriving DecidableEq, Repr

/-- Model of Selenium `element.get_attribute(name)`: the attribute value, or
`None` when the element does not carry the attribute. -/
def Elem.getAttribute (e : Elem) (name : String) : Option String :=
  (e.attrs.find? (fun p => p.1 = name)).map (fun p => p.2)

/-- Results of the two `find_elements` queries issued on the
`.fr-product-price` container (lines 181-191). -/
structure PriceElem where
  originalSpans : List Elem
  limitedSpans : List Elem
deriving DecidableEq, Repr

/-- One product card, represented by the results of the selector queries
`extract_product_info` performs on it (in source order). -/
structure ProductElem where
  dataTest : Option String
  imageElem : Option Elem
  colorTips : List Elem
  titleElem : Option Elem
  sizeElem : Option Elem
  priceElem : Option PriceElem
  limitedOfferFlags : List Elem
  additionalItems : List Elem
  anchorElem : Option Elem
deriving DecidableEq, Repr

/-- The dictionary built on lines 237-249 of src/scraper.py.  The `image`
field is optional because `get_attribute("src")` can itself return `None`
without raising. -/
structure ProductInfo where
  product_id : String
  title : String
  image : Option String
  color_options : Nat
  size_info : String
  original_price : Option String
  sale_price : Option String
  discount : Option String
  limited_offer : Option String
  additional_info : List String
  product_url : String
deriving DecidableEq, Repr

/-! ### The per-item extractor (src/scraper.py lines 135-256) -/

/-- Model of the color swatch count (lines 163-166): one pass over the
swatches, counting those whose class attribute does not contain "extra".
A swatch without a class attribute makes the membership test raise TypeError
(`"extra" not in None`), modelled by the error side. -/
def countColorOptions : List Elem → Except String Nat
  | [] => .ok 0
  | tip :: rest =>
    match tip.getAttribute "class" with
    | none => .error "TypeError: argument of type NoneType is not iterable"
    | some cls =>
      match countColorOptions rest with
      | .error e => .error e
      | .ok n => .ok ((if pyContains "extra" cls then 0 else 1) + n)

/-- Model of lines 184-185 and 190-191: when the span list of a price
fragment is non-empty, take the text of its last element, stripped. -/
def lastSpanText (spans : List Elem) : Option String :=
  spans.getLast?.map (fun e => pyStrip e.text)

/-- Model of lines 193-194: `if not sale_price: sale_price = None` — a
present-but-empty sale price is normalized to absent. -/
def normalizeSale (sale : Option String) : Option String :=
  match sale with
  | some s => if s = "" then none else some s
  | none => none

/-- Model of the discount computation (lines 196-213).  It runs only when
both price strings are truthy; the inner `try` absorbs the ValueError raised
by a failing `float(...)` conversion (discount stays `None`), while a zero
original price raises ZeroDivisionError, which the inner `except ValueError`
does not catch.  The result is the number of hundredths of the rounded
percentage. -/
def computeDiscount (original_price sale_price : Option String) :
    Except String (Option Int) :=
  match original_price, sale_price with
  | some o, some s =>
    if o = "" || s = "" then .ok none
    else
      match pyFloat (pyReplace "RM" "" (pyReplace "," "" o)),
            pyFloat (pyReplace "RM" "" (pyReplace "," "" s)) with
      | some od, some sd =>
        if od.mant = 0 then .error "ZeroDivisionError: float division by zero"
        else .ok (some (discountHundredths od sd))
      | _, _ => .ok none
  | _, _ => .ok none

/-- Model of the additional-tags comprehension (lines 222-227): keep the
stripped text of every flag list item whose data-test attribute does not
contain "limited-offer"; an item without a data-test attribute makes the
membership test raise TypeError, which aborts the whole comprehension. -/
def collectAdditionalInfo : List Elem → Except String (List String)
  | [] => .ok []
  | info :: rest =>
    match info.getAttribute "data-test" with
    | none => .error "TypeError: argument of type NoneType is not iterable"
    | some dt =>
      match collectAdditionalInfo rest with
      | .error e => .error e
      | .ok tags =>
        .ok (if pyContains "limited-offer" dt then tags else pyStrip info.text :: tags)

/-- The dictionary literal of lines 237-249, factored out so theorems can
name the assembled record.  Line 245 formats a computed discount as the
string `f"{discount}%"`. -/
def buildRecord (product_id title : String) (image : Option String)
    (color_options : Nat) (size_info : String)
    (original_price sale_price : Option String) (discount : Option Int)
    (limited_offer : Option String) (additional_info : List String)
    (product_url : String) : ProductInfo :=
  ⟨product_id, title, image, color_options, size_info, original_price,
   sale_price, discount.map (fun d => formatHundredths d ++ "%"),
   limited_offer, additional_info, product_url⟩

/-- The body of the `try` block of `extract_product_info` (lines 156-252),
with each step in source order.  `Except.error` models an exception escaping
the step; `Except.ok none` models the policy-skip `return None` of line 235;
`Except.ok (some r)` models a returned record. -/
def extractCore (product : ProductElem) (base_url : String) :
    Except String (Option ProductInfo) :=
  match product.dataTest with
  | none => .error "AttributeError: NoneType has no attribute split"
  | some dt =>
    let product_id := (pySplit "product-card-" dt).getLastD ""
    match product.imageElem with
    | none => .error "NoSuchElementException: .fr-product-image img"
    | some imgEl =>
      let image := imgEl.getAttribute "src"
      match countColorOptions product.colorTips with
      | .error e => .error e
      | .ok color_options =>
        match product.titleElem with
        | none => .error "NoSuchElementException: h2.description"
        | some titleEl =>
          let title := pyStrip titleEl.text
          match product.sizeElem with
          | none => .error "NoSuchElementException: product-card-size"
          | some sizeEl =>
            let size_info := pyStrip sizeEl.text
            match product.priceElem with
            | none => .error "NoSuchElementException: .fr-product-price"
            | some priceEl =>
              let original_price := lastSpanText priceEl.originalSpans
              let sale_price := normalizeSale (lastSpanText priceEl.limitedSpans)
              match computeDiscount original_price sale_price with
              | .error e => .error e
              | .ok discount =>
                let limited_offer :=
                  product.limitedOfferFlags.head?.map (fun e => pyStrip e.text)
                match collectAdditionalInfo product.additionalItems with
                | .error e => .error e
                | .ok additional_info =>
                  match product.anchorElem with
                  | none => .error "NoSuchElementException: a"
                  | some anchorEl =>
                    let product_url :=
                      urljoin base_url (anchorEl.getAttribute "href")
                    if is_allowed product_url = false then .ok none
                    else
                      .ok (some (buildRecord product_id title image
                        color_options size_info original_price sale_price
                        discount limited_offer additional_info product_url))

/-- Model of `extract_product_info(product, base_url)` (lines 135-256): the
`except Exception` handler of lines 254-256 maps every exception escaping the
body to `None`. -/
def extract_product_info (product : ProductElem) (base_url : String) :
    Option ProductInfo :=
  match extractCore product base_url with
  | .ok r => r
  | .error _ => none

/-! ### The reveal loop (src/scraper.py lines 74-132)

One iteration of the `while True` loop ends in exactly one of five observable
ways, enumerated by `LoadMoreEvent`; a run of the loop is driven by the trace
of these outcomes.  Every exception branch of the loop body is caught and
turns into `break` or `continue` (lines 116-128), so the function always
returns normally; the `Except` result records this: no trace ever produces
`Except.error`.  `none` models a trace too short to finish the loop. -/

inductive LoadMoreEvent
  | timeout
  | notDisplayed
  | clicked
  | stale
  | otherError
deriving DecidableEq, Repr

/-- The loop of lines 89-128, driven by the iteration-outcome trace and
accumulating the click counter `load_more_count`.  `timeout` and the
NoSuchElement case break, `notDisplayed` breaks, a generic exception breaks,
a click increments the counter and continues, and a stale reference retries
without counting. -/
def loadMoreGo : Nat → List LoadMoreEvent → Option (Except String Nat)
  | _, [] => none
  | count, e :: rest =>
    match e with
    | .timeout => some (.ok count)
    | .notDisplayed => some (.ok count)
    | .otherError => some (.ok count)
    | .clicked => loadMoreGo (count + 1) rest
    | .stale => loadMoreGo count rest

/-- Model of `scroll_and_click_load_more(driver)`: run the loop from a zero
click counter. -/
def scroll_and_click_load_more (events : List LoadMoreEvent) :
    Option (Except String Nat) :=
  loadMoreGo 0 events

/-! ### The orchestrator (src/scraper.py lines 259-301) -/

/-- Behaviour of the browser session for one run: whether `driver.get`
succeeds, the reveal-loop trace, and the item cards
`driver.find_elements(By.CSS_SELECTOR, "article.fr-grid-item.w4")` returns. -/
structure BrowserRun where
  navOk : Bool
  revealEvents : List LoadMoreEvent
  items : List ProductElem
deriving DecidableEq, Repr

/-- Observable outcome of one orchestrator run: the value returned (or the
exception propagated) to the caller, whether a browser session was created,
and whether `driver.quit()` (line 298) ran before control returned. -/
structure ScrapeOutcome where
  result : Except String (List ProductInfo)
  sessionCreated : Bool
  quitCalled : Bool
deriving Repr

/-- The extraction loop of lines 291-296: apply the extractor to every item
and keep the truthy results in order. -/
def processProducts (items : List ProductElem) (base_url : String) :
    List ProductInfo :=
  items.filterMap (fun p => extract_product_info p base_url)

/-- Model of `scrape_uniqlo_women_tops(url)` (lines 259-301).  The body has
no try/finally: when `driver.get(url)` raises, the exception propagates to
the caller and the `driver.quit()` call on line 298 is never reached, which
the model records as `quitCalled := false`.  The reveal loop and the per-item
extractor absorb their own failures, so once navigation succeeds the run
reaches line 298 and quits the session. -/
def scrape_uniqlo_women_tops (url : String) (run : BrowserRun) : ScrapeOutcome :=
  if is_allowed url = false then
    ⟨.ok [], false, false⟩
  else if run.navOk = false then
    ⟨.error "WebDriverException: navigation failed", true, false⟩
  else
    let _reveal := scroll_and_click_load_more run.revealEvents
    ⟨.ok (processProducts run.items url), true, true⟩

/-! ### Concrete inputs used to instantiate the theorems -/

/-- The category URL the CLI entry point scrapes (line 341). -/
def sampleBase : String := "https://www.uniqlo.com/my/en/women/tops/tops-collections"

/-- A fully populated item card with an original and a sale price, three
color swatches one of which carries the "extra" marker, and nested currency
markup in the original-price fragment. -/
def sampleDiscountItem : ProductElem :=
  ⟨some "product-card-E459065",
   some ⟨"", [("src", "https://image.uniqlo.com/E459065.jpg")]⟩,
   [⟨"", [("class", "color-tip color-08")]⟩,
    ⟨"", [("class", "color-tip color-69")]⟩,
    ⟨"", [("class", "color-tip extra")]⟩],
   some ⟨"Ribbed Cropped T-Shirt", []⟩,
   some ⟨"XS-XL", [("data-test", "product-card-size")]⟩,
   some ⟨[⟨"RM 100", []⟩, ⟨"RM100.00", []⟩], [⟨"RM75.00", []⟩]⟩,
   [],
   [⟨"Sale", [("data-test", "flag-sale")]⟩],
   some ⟨"", [("href", "/my/en/products/E459065")]⟩⟩

/-- The record `extract_product_info` produces for `sampleDiscountItem`. -/
def sampleDiscountRecord : ProductInfo :=
  ⟨"E459065", "Ribbed Cropped T-Shirt",
   some "https://image.uniqlo.com/E459065.jpg", 2, "XS-XL",
   some "RM100.00", some "RM75.00", some "25.0%", none, ["Sale"],
   "https://www.uniqlo.com/my/en/products/E459065"⟩

/-- An item card whose price container is present but whose two price
fragments are both empty, with no color swatches. -/
def samplePlainItem : ProductElem :=
  ⟨some "product-card-E100000",
   some ⟨"", [("src", "https://image.uniqlo.com/E100000.jpg")]⟩,
   [],
   some ⟨"Plain Tee", []⟩,
   some ⟨"S-L", []⟩,
   some ⟨[], []⟩,
   [], [],
   some ⟨"", [("href", "/my/en/products/E100000")]⟩⟩

/-- The record `extract_product_info` produces for `samplePlainItem`. -/
def samplePlainRecord : ProductInfo :=
  ⟨"E100000", "Plain Tee", some "https://image.uniqlo.com/E100000.jpg",
   0, "S-L", none, none, none, none, [],
   "https://www.uniqlo.com/my/en/products/E100000"⟩

/-- An item card whose title element is missing. -/
def sampleMissingTitleItem : ProductElem :=
  ⟨some "product-card-E200000",
   some ⟨"", [("src", "https://image.uniqlo.com/E200000.jpg")]⟩,
   [], none,
   some ⟨"S-L", []⟩,
   some ⟨[], []⟩,
   [], [],
   some ⟨"", [("href", "/my/en/products/E200000")]⟩⟩

/-- An item card whose anchor resolves to a disallowed path. -/
def sampleDisallowedItem : ProductElem :=
  ⟨some "product-card-E300000",
   some ⟨"", [("src", "https://image.uniqlo.com/E300000.jpg")]⟩,
   [],
   some ⟨"Campaign Tee", []⟩,
   some ⟨"S-L", []⟩,
   some ⟨[], []⟩,
   [], [],
   some ⟨"", [("href", "/my/en/cms/campaign")]⟩⟩

/-- An item card with no `.fr-product-price` container at all. -/
def sampleNoPriceItem : ProductElem :=
  ⟨some "product-card-E500000",
   some ⟨"", [("src", "https://image.uniqlo.com/E500000.jpg")]⟩,
   [],
   some ⟨"Priceless Tee", []⟩,
   some ⟨"S-L", []⟩,
   none,
   [], [],
   some ⟨"", [("href", "/my/en/products/E500000")]⟩⟩

/-- An item card one of whose promotional-flag list items carries no
data-test attribute. -/
def sampleBadTagItem : ProductElem :=
  ⟨some "product-card-E400000",
   some ⟨"", [("src", "https://image.uniqlo.com/E400000.jpg")]⟩,
   [],
   some ⟨"Tagged Tee", []⟩,
   some ⟨"S-L", []⟩,
   some ⟨[], []⟩,
   [],
   [⟨"New Arrival", []⟩],
   some ⟨"", [("href", "/my/en/products/E400000")]⟩⟩

/-! ### Shared inversion and characterization lemmas -/

/-- Inversion of a successful extraction: a record is produced exactly by the
single success path of `extractCore`, which pins down every queried part of
the item and the shape of the record. -/
theorem extract_some_inv (p : ProductElem) (base : String) (r : ProductInfo)
    (h : extract_product_info p base = some r) :
    ∃ dt imgEl n titleEl sizeEl priceEl d tags anchorEl,
      p.dataTest = some dt ∧
      p.imageElem = some imgEl ∧
      countColorOptions p.colorTips = Except.ok n ∧
      p.titleElem = some titleEl ∧
      p.sizeElem = some sizeEl ∧
      p.priceElem = some priceEl ∧
      computeDiscount (lastSpanText priceEl.originalSpans)
        (normalizeSale (lastSpanText priceEl.limitedSpans)) = Except.ok d ∧
      collectAdditionalInfo p.additionalItems = Except.ok tags ∧
      p.anchorElem = some anchorEl ∧
      is_allowed (urljoin base (anchorEl.getAttribute "href")) = true ∧
      r = buildRecord ((pySplit "product-card-" dt).getLastD "")
            (pyStrip titleEl.text) (imgEl.getAttribute "src") n
            (pyStrip sizeEl.text) (lastSpanText priceEl.originalSpans)
            (normalizeSale (lastSpanText priceEl.limitedSpans)) d
            (p.limitedOfferFlags.head?.map (fun e => pyStrip e.text)) tags
            (urljoin base (anchorEl.getAttribute "href")) := by
  have hc : extractCore p base = .ok (some r) := by
    unfold extract_product_info at h
    cases hx : extractCore p base with
    | error e => rw [hx] at h; exact absurd h (by simp)
    | ok o =>
      rw [hx] at h; dsimp only at h; exact congrArg Except.ok h
  unfold extractCore at hc
  rcases h1 : p.dataTest with _ | dt
  · rw [h1] at hc; simp at hc
  rw [h1] at hc; dsimp only at hc
  rcases h2 : p.imageElem with _ | imgEl
  · rw [h2] at hc; simp at hc
  rw [h2] at hc; dsimp only at hc
  rcases h3 : countColorOptions p.colorTips with e | n
  · rw [h3] at hc; simp at hc
  rw [h3] at hc; dsimp only at hc
  rcases h4 : p.titleElem with _ | titleEl
  · rw [h4] at hc; simp at hc
  rw [h4] at hc; dsimp only at hc
  rcases h5 : p.sizeElem with _ | sizeEl
  · rw [h5] at hc; simp at hc
  rw [h5] at hc; dsimp only at hc
  rcases h6 : p.priceElem with _ | priceEl
  · rw [h6] at hc; simp at hc
  rw [h6] at hc; dsimp only at hc
  rcases h7 : computeDiscount (lastSpanText priceEl.originalSpans)
      (normalizeSale (lastSpanText priceEl.limitedSpans)) with e | d
  · rw [h7] at hc; simp at hc
  rw [h7] at hc; dsimp only at hc
  rcases h8 : collectAdditionalInfo p.additionalItems with e | tags
  · rw [h8] at hc; simp at hc
  rw [h8] at hc; dsimp only at hc
  rcases h9 : p.anchorElem with _ | anchorEl
  · rw [h9] at hc; simp at hc
  rw [h9] at hc; dsimp only at hc
  by_cases h10 : is_allowed (urljoin base (anchorEl.getAttribute "href")) = false
  · rw [if_pos h10] at hc; simp at hc
  · rw [if_neg h10] at hc
    simp only [Except.ok.injEq, Option.some.injEq] at hc
    exact ⟨dt, imgEl, n, titleEl, sizeEl, priceEl, d, tags, anchorEl,
      rfl, rfl, rfl, rfl, rfl, rfl, h7, rfl, rfl, by simpa using h10, hc.symm⟩

/-- Characterization of a successful color count: the result counts exactly
the swatches whose class attribute does not contain "extra". -/
theorem countColorOptions_ok_eq (tips : List Elem) (n : Nat)
    (h : countColorOptions tips = .ok n) :
    n = (tips.filter (fun tip =>
      !(pyContains "extra" ((tip.getAttribute "class").getD "")))).length := by
  induction tips generalizing n with
  | nil =>
    unfold countColorOptions at h
    simp only [Except.ok.injEq] at h
    simp [h.symm]
  | cons tip rest ih =>
    unfold countColorOptions at h
    cases hcls : tip.getAttribute "class" with
    | none => rw [hcls] at h; simp at h
    | some cls =>
      rw [hcls] at h
      cases hr : countColorOptions rest with
      | error e => rw [hr] at h; simp at h
      | ok m =>
        rw [hr] at h
        simp only [Except.ok.injEq] at h
        have hm := ih m hr
        rw [List.filter_cons]
        by_cases hx : pyContains "extra" cls = true
        · simp [hcls, hx, ← h, hm]
        · simp only [Bool.not_eq_true] at hx
          simp [hcls, hx, ← h, hm]
          omega

/-- When some flag list item carries no data-test attribute, the tag
comprehension cannot complete normally. -/
theorem collectAdditionalInfo_error_of_missing (items : List Elem)
    (h : ∃ li ∈ items, li.getAttribute "data-test" = none) (tags : List String) :
    collectAdditionalInfo items ≠ .ok tags := by
  induction items generalizing tags with
  | nil => simp at h
  | cons info rest ih =>
    intro hok
    unfold collectAdditionalInfo at hok
    cases hdt : info.getAttribute "data-test" with
    | none => rw [hdt] at hok; simp at hok
    | some dt =>
      rw [hdt] at hok
      rcases h with ⟨li, hmem, hnone⟩
      rcases List.mem_cons.mp hmem with rfl | hmem2
      · rw [hdt] at hnone; cases hnone
      · cases hr : collectAdditionalInfo rest with
        | error e => rw [hr] at hok; simp at hok
        | ok tags2 => exact ih ⟨li, hmem2, hnone⟩ tags2 hr

/-- The normalized sale price is never the empty string. -/
theorem normalizeSale_ne_some_empty (o : Option String) :
    normalizeSale o ≠ some "" := by
  cases o with
  | none => simp [normalizeSale]
  | some s =>
    unfold normalizeSale
    by_cases hs : s = ""
    · simp [hs]
    · simp [hs]

/-- With no original price the discount computation returns no discount. -/
theorem computeDiscount_none_left (s : Option String) :
    computeDiscount none s = .ok none := by
  cases s <;> rfl

/-- With no sale price the discount computation returns no discount. -/
theorem computeDiscount_none_right (o : Option String) :
    computeDiscount o none = .ok none := by
  cases o <;> rfl

/-- The stripped empty string does not parse as a float. -/
theorem pyFloat_stripped_empty :
    pyFloat (pyReplace "RM" "" (pyReplace "," "" "")) = none := by decide

/-- When either price string fails to parse, the discount is omitted and no
error escapes (the inner except absorbs the ValueError). -/
theorem computeDiscount_parse_fail (o s : String)
    (hf : pyFloat (pyReplace "RM" "" (pyReplace "," "" o)) = none ∨
          pyFloat (pyReplace "RM" "" (pyReplace "," "" s)) = none) :
    computeDiscount (some o) (some s) = .ok none := by
  unfold computeDiscount
  by_cases ho : o = ""
  · simp [ho]
  by_cases hs : s = ""
  · simp [hs]
  simp only [ho, hs, decide_False, Bool.or_self, Bool.false_eq_true, if_false]
  cases hfo : pyFloat (pyReplace "RM" "" (pyReplace "," "" o)) with
  | none =>
    cases hfs : pyFloat (pyReplace "RM" "" (pyReplace "," "" s)) <;> rfl
  | some od =>
    cases hfs : pyFloat (pyReplace "RM" "" (pyReplace "," "" s)) with
    | none => rfl
    | some sd =>
      rcases hf with hf | hf
      · rw [hfo] at hf; cases hf
      · rw [hfs] at hf; cases hf

/-- When both price strings parse and the original is non-zero, the discount
is the rounded percentage. -/
theorem computeDiscount_parse_ok (o s : String) (od sd : PyDec)
    (ho : pyFloat (pyReplace "RM" "" (pyReplace "," "" o)) = some od)
    (hs : pyFloat (pyReplace "RM" "" (pyReplace "," "" s)) = some sd)
    (hz : od.mant ≠ 0) :
    computeDiscount (some o) (some s) = .ok (some (discountHundredths od sd)) := by
  have hoe : o ≠ "" := by
    rintro rfl; rw [pyFloat_stripped_empty] at ho; cases ho
  have hse : s ≠ "" := by
    rintro rfl; rw [pyFloat_stripped_empty] at hs; cases hs
  unfold computeDiscount
  simp only [hoe, hse, decide_False, Bool.or_self, Bool.false_eq_true, if_false]
  rw [ho, hs]
  simp [hz]

/-- When both price strings parse but the original parses to zero, the
division raises ZeroDivisionError, which the inner except does not catch. -/
theorem computeDiscount_zero_div (o s : String) (od sd : PyDec)
    (ho : pyFloat (pyReplace "RM" "" (pyReplace "," "" o)) = some od)
    (hs : pyFloat (pyReplace "RM" "" (pyReplace "," "" s)) = some sd)
    (hz : od.mant = 0) :
    computeDiscount (some o) (some s) =
      .error "ZeroDivisionError: float division by zero" := by
  have hoe : o ≠ "" := by
    rintro rfl; rw [pyFloat_stripped_empty] at ho; cases ho
  have hse : s ≠ "" := by
    rintro rfl; rw [pyFloat_stripped_empty] at hs; cases hs
  unfold computeDiscount
  simp only [hoe, hse, decide_False, Bool.or_self, Bool.false_eq_true, if_false]
  rw [ho, hs]
  simp [hz]

/-- C1: a ProductRecord is emitted only if productId, title, imageUrl and
productUrl are all successfully extracted (their selector lookups complete)
and productUrl passes PathPolicy; if productUrl is disallowed or any of
those extractions fails, the item yields no record. -/
theorem C1_record_emission_invariant (p : ProductElem) (base : String) :
    (∀ r, extract_product_info p base = some r →
      p.dataTest.isSome = true ∧ p.imageElem.isSome = true ∧
      p.titleElem.isSome = true ∧ p.anchorElem.isSome = true ∧
      is_allowed r.product_url = true) ∧
    ((p.dataTest = none ∨ p.imageElem = none ∨ p.titleElem = none ∨
        p.anchorElem = none ∨
        (∃ a, p.anchorElem = some a ∧
          is_allowed (urljoin base (a.getAttribute "href")) = false)) →
      extract_product_info p base = none) := by
  constructor
  · intro r h
    obtain ⟨dt, imgEl, n, tEl, sEl, pe, d, tags, aEl,
      h1, h2, h3, h4, h5, h6, h7, h8, h9, h10, hr⟩ := extract_some_inv p base r h
    refine ⟨by simp [h1], by simp [h2], by simp [h4], by simp [h9], ?_⟩
    rw [hr]
    simpa [buildRecord] using h10
  · intro hbad
    cases hx : extract_product_info p base with
    | none => rfl
    | some r =>
      obtain ⟨dt, imgEl, n, tEl, sEl, pe, d, tags, aEl,
        h1, h2, h3, h4, h5, h6, h7, h8, h9, h10, hr⟩ := extract_some_inv p base r hx
      rcases hbad with hb | hb | hb | hb | ⟨a, ha, hdis⟩
      · rw [hb] at h1; cases h1
      · rw [hb] at h2; cases h2
      · rw [hb] at h4; cases h4
      · rw [hb] at h9; cases h9
      · rw [ha] at h9
        injection h9 with he
        subst he
        rw [h10] at hdis
        cases hdis

/-- C1 witness: a disallowed item URL yields no record, and an emitted
record has an allowed product URL. -/
theorem C1_witness :
    extract_product_info sampleDisallowedItem sampleBase = none ∧
    is_allowed sampleDiscountRecord.product_url = true := by
  constructor
  · exact (C1_record_emission_invariant sampleDisallowedItem sampleBase).2
      (Or.inr (Or.inr (Or.inr (Or.inr
        ⟨⟨"", [("href", "/my/en/cms/campaign")]⟩, rfl, by decide⟩))))
  · exact ((C1_record_emission_invariant sampleDiscountItem sampleBase).1
      sampleDiscountRecord (by decide)).2.2.2.2

/-- C2 counterexample: for original "RM100.00" and sale "RM75.00" the
emitted record stores the discount as the string "25.0%" (line 245 formats
the computed number with a percent sign), not as the number 25.0, so the
discount field is not an optional number as claimed. -/
theorem C2_counterexample :
    (extract_product_info sampleDiscountItem sampleBase).map ProductInfo.discount =
      some (some "25.0%") ∧
    some (some "25.0%") ≠ some (some "25.0") := ⟨by decide, by decide⟩

/-- C2 amended: in every emitted record the discount field is present
exactly when both raw price strings parse as numbers after stripping commas
and the RM marker, and then holds the percentage
(original - sale) / original * 100 rounded to two decimals, formatted as the
string rendering of that number followed by a percent sign; with the sale
price absent (or the original absent, or either unparsable) the discount is
omitted, not zero. -/
theorem C2_discount_amended (p : ProductElem) (base : String) (r : ProductInfo)
    (h : extract_product_info p base = some r) :
    (r.original_price = none → r.discount = none) ∧
    (r.sale_price = none → r.discount = none) ∧
    (∀ o s, r.original_price = some o → r.sale_price = some s →
      (pyFloat (pyReplace "RM" "" (pyReplace "," "" o)) = none ∨
        pyFloat (pyReplace "RM" "" (pyReplace "," "" s)) = none) →
      r.discount = none) ∧
    (∀ o s od sd, r.original_price = some o → r.sale_price = some s →
      pyFloat (pyReplace "RM" "" (pyReplace "," "" o)) = some od →
      pyFloat (pyReplace "RM" "" (pyReplace "," "" s)) = some sd →
      r.discount = some (formatHundredths (discountHundredths od sd) ++ "%")) := by
  obtain ⟨dt, imgEl, n, tEl, sEl, pe, d, tags, aEl,
    h1, h2, h3, h4, h5, h6, h7, h8, h9, h10, hr⟩ := extract_some_inv p base r h
  subst hr
  refine ⟨?_, ?_, ?_, ?_⟩
  · intro hO
    simp only [buildRecord] at hO ⊢
    rw [hO, computeDiscount_none_left] at h7
    injection h7 with h7e
    simp [← h7e]
  · intro hS
    simp only [buildRecord] at hS ⊢
    rw [hS, computeDiscount_none_right] at h7
    injection h7 with h7e
    simp [← h7e]
  · intro o s hO hS hf
    simp only [buildRecord] at hO hS ⊢
    rw [hO, hS, computeDiscount_parse_fail o s hf] at h7
    injection h7 with h7e
    simp [← h7e]
  · intro o s od sd hO hS hfo hfs
    simp only [buildRecord] at hO hS ⊢
    by_cases hz : od.mant = 0
    · rw [hO, hS, computeDiscount_zero_div o s od sd hfo hfs hz] at h7
      cases h7
    · rw [hO, hS, computeDiscount_parse_ok o s od sd hfo hfs hz] at h7
      injection h7 with h7e
      simp [← h7e]

/-- C2 witness: RM100.00 against RM75.00 gives the stored discount string
for 25 percent, and the record with no sale price has no discount. -/
theorem C2_witness :
    sampleDiscountRecord.discount =
      some (formatHundredths (discountHundredths ⟨10000, 2⟩ ⟨7500, 2⟩) ++ "%") ∧
    samplePlainRecord.discount = none := by
  constructor
  · exact (C2_discount_amended sampleDiscountItem sampleBase sampleDiscountRecord
      (by decide)).2.2.2 "RM100.00" "RM75.00" ⟨10000, 2⟩ ⟨7500, 2⟩
      (by decide) (by decide) (by decide) (by decide)
  · exact (C2_discount_amended samplePlainItem sampleBase samplePlainRecord
      (by decide)).2.1 (by decide)

/-- C3: the per-item extractor never raises past its own boundary — every
error of the body is absorbed into "no record" — an item missing its title
element yields no record, and a failing item leaves the results of the other
items in the batch unchanged. -/
theorem C3_item_failures_absorbed (base : String) :
    (∀ p e, extractCore p base = .error e → extract_product_info p base = none) ∧
    (∀ p : ProductElem, p.titleElem = none → extract_product_info p base = none) ∧
    (∀ xs ys (p : ProductElem), extract_product_info p base = none →
      processProducts (xs ++ p :: ys) base =
        processProducts xs base ++ processProducts ys base) := by
  refine ⟨?_, ?_, ?_⟩
  · intro p e he
    unfold extract_product_info
    rw [he]
  · intro p hp
    cases hx : extract_product_info p base with
    | none => rfl
    | some r =>
      obtain ⟨_, _, _, _, _, _, _, _, _, _, _, _, h4, _, _, _, _, _, _, _⟩ :=
        extract_some_inv p base r hx
      rw [hp] at h4; cases h4
  · intro xs ys p hp
    simp [processProducts, List.filterMap_append, List.filterMap_cons, hp]

/-- C3 witness: dropping the item with the missing title leaves the batch
result equal to processing the remaining item alone. -/
theorem C3_witness :
    processProducts [sampleDiscountItem, sampleMissingTitleItem] sampleBase =
      processProducts [sampleDiscountItem] sampleBase := by
  have habs := (C3_item_failures_absorbed sampleBase).2.1 sampleMissingTitleItem rfl
  have h := (C3_item_failures_absorbed sampleBase).2.2 [sampleDiscountItem] []
    sampleMissingTitleItem habs
  simpa [processProducts] using h

/-- C5: when the load-more control never becomes visible (every iteration
ends in a wait timeout or an invisible control), the reveal loop terminates
at once with zero clicks performed, returning normally rather than
propagating an error. -/
theorem C5_reveal_never_visible_terminates (events : List LoadMoreEvent)
    (hne : events ≠ [])
    (hnv : ∀ e ∈ events,
      e = LoadMoreEvent.timeout ∨ e = LoadMoreEvent.notDisplayed) :
    scroll_and_click_load_more events = some (.ok 0) := by
  cases events with
  | nil => exact absurd rfl hne
  | cons e rest =>
    rcases hnv e (List.mem_cons_self e rest) with h | h <;> subst h <;> rfl

/-- C5 witness: a control that is present but never displayed ends the loop
normally with zero clicks. -/
theorem C5_witness :
    scroll_and_click_load_more [LoadMoreEvent.notDisplayed] = some (.ok 0) :=
  C5_reveal_never_visible_terminates [LoadMoreEvent.notDisplayed]
    (by decide) (by decide)

/-- C6: evaluation at the failing input. When navigation fails on an allowed
URL, the orchestrator creates a session, propagates the navigation error to
the caller, and never reaches the driver.quit call of line 298 (the body has
no try/finally), contradicting the claim that the session is always
released; when navigation succeeds the quit call is reached. -/
theorem C6_session_leak_on_navigation_failure :
    (scrape_uniqlo_women_tops sampleBase ⟨false, [], []⟩).sessionCreated = true ∧
    (scrape_uniqlo_women_tops sampleBase ⟨false, [], []⟩).quitCalled = false ∧
    (scrape_uniqlo_women_tops sampleBase ⟨false, [], []⟩).result =
      .error "WebDriverException: navigation failed" ∧
    (scrape_uniqlo_women_tops sampleBase
      ⟨true, [LoadMoreEvent.timeout], []⟩).quitCalled = true :=
  ⟨by decide, by decide, rfl, by decide⟩

/-- C7: in every emitted record, each non-empty price fragment contributes
the trimmed text of its last currency span, and a present-but-empty sale
price is normalized to absent — the sale price is never the empty string. -/
theorem C7_last_currency_span (p : ProductElem) (base : String) (r : ProductInfo)
    (h : extract_product_info p base = some r) :
    (∀ pe, p.priceElem = some pe →
      (pe.originalSpans ≠ [] →
        ∃ last, pe.originalSpans.getLast? = some last ∧
          r.original_price = some (pyStrip last.text)) ∧
      (pe.limitedSpans ≠ [] →
        ∃ last, pe.limitedSpans.getLast? = some last ∧
          r.sale_price = (if pyStrip last.text = "" then none
            else some (pyStrip last.text)))) ∧
    r.sale_price ≠ some "" := by
  obtain ⟨dt, imgEl, n, tEl, sEl, pe, d, tags, aEl,
    h1, h2, h3, h4, h5, h6, h7, h8, h9, h10, hr⟩ := extract_some_inv p base r h
  subst hr
  constructor
  · intro pe2 hpe2
    rw [h6] at hpe2
    injection hpe2 with hpe2e
    subst hpe2e
    constructor
    · intro hne
      obtain ⟨last, hlast⟩ := Option.isSome_iff_exists.mp
        (List.getLast?_isSome.mpr hne)
      exact ⟨last, hlast, by simp [buildRecord, lastSpanText, hlast]⟩
    · intro hne
      obtain ⟨last, hlast⟩ := Option.isSome_iff_exists.mp
        (List.getLast?_isSome.mpr hne)
      refine ⟨last, hlast, ?_⟩
      simp [buildRecord, lastSpanText, normalizeSale, hlast]
  · simp only [buildRecord]
    exact normalizeSale_ne_some_empty _

/-- C7 witness: the record extracted from the discounted sample keeps no
empty sale price. -/
theorem C7_witness : sampleDiscountRecord.sale_price ≠ some "" :=
  (C7_last_currency_span sampleDiscountItem sampleBase sampleDiscountRecord
    (by decide)).2

/-- C8: in every emitted record, colorOptionCount is the number of color
swatches whose class does not carry the "extra" marker. -/
theorem C8_color_option_count (p : ProductElem) (base : String) (r : ProductInfo)
    (h : extract_product_info p base = some r) :
    r.color_options = (p.colorTips.filter (fun tip =>
      !(pyContains "extra" ((tip.getAttribute "class").getD "")))).length := by
  obtain ⟨dt, imgEl, n, tEl, sEl, pe, d, tags, aEl,
    h1, h2, h3, h4, h5, h6, h7, h8, h9, h10, hr⟩ := extract_some_inv p base r h
  rw [hr]
  simpa [buildRecord] using countColorOptions_ok_eq _ _ h3

/-- C8 witness: three swatches with one extra marker give a count of two,
and no swatches give zero. -/
theorem C8_witness :
    sampleDiscountRecord.color_options = 2 ∧
    samplePlainRecord.color_options = 0 := by
  constructor
  · rw [C8_color_option_count sampleDiscountItem sampleBase sampleDiscountRecord
      (by decide)]
    decide
  · rw [C8_color_option_count samplePlainItem sampleBase samplePlainRecord
      (by decide)]
    decide

/-- C9: an item with no .fr-product-price container at all yields no record,
the find_element call on line 175 raising past the field extractions. -/
theorem C9_missing_price_container (p : ProductElem) (base : String)
    (h : p.priceElem = none) : extract_product_info p base = none := by
  cases hx : extract_product_info p base with
  | none => rfl
  | some r =>
    obtain ⟨_, _, _, _, _, _, _, _, _, _, _, _, _, _, h6, _, _, _, _, _⟩ :=
      extract_some_inv p base r hx
    rw [h] at h6; cases h6

/-- C9 witness: the item without a price container is dropped, while the
item whose container has two empty fragments still yields a record with
both prices absent. -/
theorem C9_witness :
    extract_product_info sampleNoPriceItem sampleBase = none ∧
    extract_product_info samplePlainItem sampleBase = some samplePlainRecord ∧
    samplePlainRecord.original_price = none ∧
    samplePlainRecord.sale_price = none :=
  ⟨C9_missing_price_container sampleNoPriceItem sampleBase rfl,
   by decide, by decide, by decide⟩

/-- C10: when any promotional-flag list item lacks a data-test attribute,
the membership test of the additionalTags filter raises on the missing
attribute and the whole item yields no record. -/
theorem C10_missing_tag_attribute (p : ProductElem) (base : String)
    (h : ∃ li ∈ p.additionalItems, li.getAttribute "data-test" = none) :
    extract_product_info p base = none := by
  cases hx : extract_product_info p base with
  | none => rfl
  | some r =>
    obtain ⟨_, _, _, _, _, _, _, _, _, _, _, _, _, _, _, _, h8, _, _, _⟩ :=
      extract_some_inv p base r hx
    exact absurd h8 (collectAdditionalInfo_error_of_missing _ h _)

/-- C10 witness: the item whose flag list item has no data-test attribute is
dropped entirely. -/
theorem C10_witness : extract_product_info sampleBadTagItem sampleBase = none :=
  C10_missing_tag_attribute sampleBadTagItem sampleBase
    ⟨⟨"New Arrival", []⟩, by decide, rfl⟩

end Scraper
